import Mathlib

/-!
Shallow embedding of the libvirtd backend (`nixops/backends/libvirtd.py`).

The backend is a single-machine lifecycle controller.  Stateful Python code
is modelled by explicit state passing: each lifecycle operation takes an
`Env` (the behaviour of the external world: hypervisor CLI, filesystem,
random source) and a `MachineState` (the persisted per-machine attributes)
and returns the trace of external commands it issued (`List Event`)
together with either the resulting state or the error it raised
(`Except Err MachineState`).

External command invocations always succeed in the model unless the source
checks their outcome itself (the writability check, the qemu lookup, the
lease-table parse); a failing external tool in the source simply aborts the
operation, which no claim here depends on.
-/

/-- Error kinds raised by the modelled code.  `attributeError` models a
Python AttributeError, `indexError` an IndexError, `configError` a failed
assertion during definition parsing, `resourceStateError` a failed
assertion on the persisted state (for example `assert self.vm_id`),
`preconditionError` the imageDir-writability failure and the missing-qemu
assertion, and `diverge` marks an execution of the DHCP wait loop that is
never observed to terminate. -/
inductive Err where
  | configError
  | preconditionError
  | resourceStateError
  | attributeError
  | indexError
  | diverge
deriving DecidableEq, Repr

/-- One external side effect issued by the backend, in program order.
`imageBuild` is the nix-build of the base image, `copyPrimary` the
`shutil.copyfile` of `disk.qcow2`, `rebasePrimary` the `qemu-img rebase`,
`chmodPrimary` the `os.chmod`, `extraImageBuild`/`createExtraDisk` the
per-extra-disk nix-build and `qemu-img create`, `renderXml` the rendering
and persisting of the domain descriptor, `defineDomain` the
`virsh define`, `listCmd` the `virsh list` running-check, `startCmd` the
`virsh start`, `leaseQuery` one `virsh net-dhcp-leases` invocation,
`forceStop` the `virsh destroy`, `undefine` the `virsh undefine`, and
`unlink p` the deletion of disk file `p`. -/
inductive Event where
  | generateMac
  | imageBuild
  | copyPrimary
  | rebasePrimary
  | chmodPrimary
  | extraImageBuild (diskName : String)
  | createExtraDisk (diskName : String)
  | renderXml
  | defineDomain
  | listCmd
  | startCmd
  | leaseQuery
  | forceStop
  | undefine
  | unlink (path : String)
deriving DecidableEq, Repr

/-- The `self.state` flag of the base MachineState; the libvirtd code only
ever writes `STOPPED` (in `stop`). -/
inductive StateFlag where
  | initial
  | stopped
deriving DecidableEq, Repr

/-- One entry of the persisted `extra_disks` mapping: the values stored by
`_copy_extra_disks` (`out[disk_name]['device']`, `out[disk_name]['imagePath']`). -/
structure ExtraDisk where
  device : String
  imagePath : String
deriving DecidableEq, Repr

/-- One parsed disk entry of the definition (`parse_disk` result).  The
values come from XML attributes, hence both are strings, as in the source.
There is no `baseImage` field: the source line `result.baseImage = ...`
assigns an attribute on a dict and therefore raises AttributeError, so a
parsed disk can never carry a base image (see `parse_disk`). -/
structure DiskDefn where
  device : String
  size : String
deriving DecidableEq, Repr

/-- The typed machine definition built by `LibvirtdDefinition.__init__`.
All scalar fields hold the raw XML attribute strings, exactly as
`.get("value")` returns them; only `headless` is compared against
`'true'` in the source and is therefore a Bool. -/
structure Defn where
  vcpu : String
  memory_size : String
  extra_devices : String
  extra_domain : String
  headless : Bool
  image_dir : String
  networks : List String
  disks : List (String × DiskDefn)
deriving DecidableEq, Repr

/-- The persisted per-machine attributes of `LibvirtdState` (the
`attr_property` fields) plus the deployment uuid and machine name that
`_vm_id` reads.  Unset attributes are `none`. -/
structure MachineState where
  depl_uuid : String
  name : String
  private_ipv4 : Option String
  client_public_key : Option String
  client_private_key : Option String
  primary_net : Option String
  primary_mac : Option String
  domain_xml : Option String
  disk_path : Option String
  extra_disks : List (String × ExtraDisk)
  vm_id : Option String
  state_flag : StateFlag
deriving DecidableEq, Repr

/-- A freshly created machine state: every persisted attribute unset, as a
new `LibvirtdState` starts out. -/
def fresh (uuid nm : String) : MachineState :=
  { depl_uuid := uuid
    name := nm
    private_ipv4 := none
    client_public_key := none
    client_private_key := none
    primary_net := none
    primary_mac := none
    domain_xml := none
    disk_path := none
    extra_disks := []
    vm_id := none
    state_flag := StateFlag.initial }

/-- Behaviour of the external world during one lifecycle operation:
whether `imageDir` is writable, the result of the qemu-executable lookup,
whether `virsh list` reports the domain as running, the whitespace tokens
of the `net-dhcp-leases` output seen by the reconnect path, the successive
lease outputs observed by the wait loop, which files exist, the three
`random.randint` draws (their types carry the randint bounds
`(0x00, 0x7f)`, `(0x00, 0xff)`, `(0x00, 0xff)` from
`_generate_primary_mac`), and the generated SSH key pair. -/
structure Env where
  writable : Bool
  qemu : Option String
  running : Bool
  leaseTokens : List String
  pollOutputs : List (List String)
  fileExists : String → Bool
  r1 : Fin 128
  r2 : Fin 256
  r3 : Fin 256
  keyPub : String
  keyPriv : String

/-- Python truthiness of an optional string attribute: `None` and the
empty string are falsy, everything else truthy (used by checks such as
`if not self.primary_mac` and `assert self.vm_id`). -/
def optTruthy : Option String → Bool
  | none => false
  | some s => !(s == "")

/-- `_vm_id`: `"nixops-{0}-{1}".format(self.depl.uuid, self.name)`. -/
def vm_id_string (s : MachineState) : String :=
  "nixops-" ++ s.depl_uuid ++ "-" ++ s.name

/-- Lowercase hexadecimal digit character for a value below 16. -/
def hexDigitChar (n : Nat) : Char :=
  if n < 10 then Char.ofNat (48 + n) else Char.ofNat (87 + n)

/-- The `"%02x" % x` formatting of one octet (two lowercase hex digits;
every formatted value in the source is below 256, where `%02x` yields
exactly two digits). -/
def hex2 (n : Nat) : String :=
  String.mk [hexDigitChar (n / 16 % 16), hexDigitChar (n % 16)]

/-- The octet list `mac` built by `_generate_primary_mac`: the fixed
prefix `0x52, 0x54, 0x00` followed by the three `random.randint` draws,
whose ranges are `[0x00, 0x7f]`, `[0x00, 0xff]`, `[0x00, 0xff]`. -/
def macOctets (r1 : Fin 128) (r2 r3 : Fin 256) : List Nat :=
  [0x52, 0x54, 0x00, r1.val, r2.val, r3.val]

/-- The MAC string `':'.join(map(lambda x: "%02x" % x, mac))`, written as
the explicit concatenation of the six two-digit groups. -/
def generate_primary_mac (r1 : Fin 128) (r2 r3 : Fin 256) : String :=
  hex2 0x52 ++ ":" ++ hex2 0x54 ++ ":" ++ hex2 0x00 ++ ":" ++
    hex2 r1.val ++ ":" ++ hex2 r2.val ++ ":" ++ hex2 r3.val

/-- The MAC-assignment step at the start of `create`:
`if not self.primary_mac: self._generate_primary_mac()`. -/
def assignMac (r1 : Fin 128) (r2 r3 : Fin 256) (s : MachineState) :
    MachineState × List Event :=
  if optTruthy s.primary_mac then (s, [])
  else ({ s with primary_mac := some (generate_primary_mac r1 r2 r3) },
        [Event.generateMac])

/-- Repeated MAC-assignment steps, one per `create` invocation, each with
its own random draws. -/
def assignMacSeq (rs : List (Fin 128 × Fin 256 × Fin 256)) (s : MachineState) :
    MachineState × List Event :=
  match rs with
  | [] => (s, [])
  | r :: rest =>
    let step := assignMac r.1 r.2.1 r.2.2 s
    let restRun := assignMacSeq rest step.1
    (restRun.1, step.2 ++ restRun.2)

/-- One raw `<attr>` element of the `disks` mapping, before parsing: each
field is `some v` when the corresponding string/int child element carries
a value attribute and `none` when it is absent. -/
structure RawDisk where
  device : Option String
  size : Option String
  baseImage : Option String
deriving DecidableEq, Repr

/-- The raw libvirtd attribute set consumed by
`LibvirtdDefinition.__init__`, with `none` for absent values. -/
structure RawConfig where
  vcpu : Option String
  memory_size : Option String
  extra_devices : Option String
  extra_domain : Option String
  headless : Option String
  image_dir : Option String
  networks : List String
  disks : List (String × RawDisk)
deriving DecidableEq, Repr

/-- The source `parse_disk`: reads the required `device` and `size`
attributes (a missing one makes `.find(...)` return None and the
following `.get` raise AttributeError), then, when a `baseImage` element
is present, executes `result.baseImage = baseImageDefn.get("value")`.
`result` is a dict, so this attribute assignment raises AttributeError
unconditionally: a disk entry carrying a baseImage can never be parsed. -/
def parse_disk (r : RawDisk) : Except Err DiskDefn :=
  match r.device, r.size with
  | some dev, some sz =>
    match r.baseImage with
    | none => .ok { device := dev, size := sz }
    | some _ => .error .attributeError
  | _, _ => .error .attributeError

/-- Parse every entry of the `disks` mapping, propagating the first
error, as the dict comprehension in the source does. -/
def traverseDisks : List (String × RawDisk) → Except Err (List (String × DiskDefn))
  | [] => .ok []
  | (n, rd) :: rest =>
    match parse_disk rd with
    | .error e => .error e
    | .ok dd =>
      match traverseDisks rest with
      | .error e => .error e
      | .ok ds => .ok ((n, dd) :: ds)

/-- `LibvirtdDefinition.__init__` on the libvirtd attribute set: reads the
required scalar attributes (a missing one raises AttributeError through
`.get` on None; the missing-element and missing-value cases are conflated
here), asserts `image_dir` present and `networks` nonempty
(`configError`), compares `headless` against the string `true`, and
parses each disk entry. -/
def parse_definition (r : RawConfig) : Except Err Defn :=
  match r.vcpu, r.memory_size, r.extra_devices, r.extra_domain, r.headless, r.image_dir with
  | some v, some m, some ed, some edom, some hl, some idir =>
    if r.networks.isEmpty then .error .configError
    else
      match traverseDisks r.disks with
      | .error e => .error e
      | .ok ds =>
        .ok { vcpu := v
              memory_size := m
              extra_devices := ed
              extra_domain := edom
              headless := hl == "true"
              image_dir := idir
              networks := r.networks
              disks := ds }
  | _, _, _, _, _, _ => .error .attributeError

/-- The subnet-stripping step of `_parse_ip`: the first element of the
token split on the slash character, which is its longest slash-free
prefix (the whole token when it contains no slash). -/
def strip_subnet (s : String) : String :=
  String.mk (s.data.takeWhile (fun c => !(c == '/')))

/-- Python `list.index`: the index of the first element equal to `x`,
`none` when absent (the ValueError branch of the source). -/
def firstIndexOf (tokens : List String) (x : String) : Option Nat :=
  match tokens with
  | [] => none
  | t :: rest =>
    if t == x then some 0
    else (firstIndexOf rest x).map (· + 1)

/-- `_parse_ip` on the whitespace-tokenized `net-dhcp-leases` output:
look up the first token equal to the primary MAC; when absent, the caught
ValueError makes the function fall through and return None; when present
at index `i`, read the token at `i + 2` (an out-of-range index raises
IndexError) and strip its subnet suffix. -/
def parse_ip (tokens : List String) (mac : String) : Except Err (Option String) :=
  match firstIndexOf tokens mac with
  | none => .ok none
  | some i =>
    if i + 2 < tokens.length then .ok (some (strip_subnet (tokens.getD (i + 2) "")))
    else .error .indexError

/-- The `while True` polling loop of `_wait_for_ip`, modelled over the
finite list of lease outputs the loop observes: a truthy parsed address
ends the loop, a falsy one (None or the empty string) moves to the next
observation, and an exhausted observation list stands for an execution of
the unbounded source loop that never terminates (`diverge`). -/
def wait_for_ip (polls : List (List String)) (mac : String) :
    List Event × Except Err String :=
  match polls with
  | [] => ([], .error .diverge)
  | toks :: rest =>
    match parse_ip toks mac with
    | .error e => ([Event.leaseQuery], .error e)
    | .ok none =>
      let next := wait_for_ip rest mac
      (Event.leaseQuery :: next.1, next.2)
    | .ok (some ip) =>
      if ip == "" then
        let next := wait_for_ip rest mac
        (Event.leaseQuery :: next.1, next.2)
      else ([Event.leaseQuery], .ok ip)


/-- The `maybe_mac` helper of `_make_domain_xml`: the mac element exactly
when the interface network equals the primary network. -/
def maybe_mac (primaryNet primaryMac n : String) : String :=
  if n = primaryNet then "<mac address=\"" ++ primaryMac ++ "\" />" else ""

/-- The `iface` helper of `_make_domain_xml`; the `.format(n)` of the
source substitutes the network name into the source element. -/
def iface (primaryNet primaryMac n : String) : String :=
  "    <interface type=\"network\">\n" ++ maybe_mac primaryNet primaryMac n ++
    "\n      <source network=\"" ++ n ++ "\"/>\n      <model type=\"virtio\"/>\n    </interface>"

/-- The per-network interface elements of the rendered descriptor, one
per entry of `defn.networks`, in list order. -/
def domainIfaces (primaryNet primaryMac : String) (networks : List String) : List String :=
  networks.map (iface primaryNet primaryMac)

/-- Whether a rendered interface element carries a mac attribute: exactly
when its `maybe_mac` fragment is nonempty. -/
def ifaceCarriesMac (primaryNet primaryMac n : String) : Bool :=
  !(maybe_mac primaryNet primaryMac n == "")

/-- The number of interface elements of the rendered descriptor that
carry a mac attribute. -/
def macCount (primaryNet primaryMac : String) (networks : List String) : Nat :=
  networks.countP (ifaceCarriesMac primaryNet primaryMac)

/-- The `disk_xml` helper of `_make_domain_xml` (the disk name argument of
the source is unused in the rendered text). -/
def disk_xml (imagePath device : String) : String :=
  "    <disk type=\"file\" device=\"disk\">\n      <driver name=\"qemu\" type=\"qcow2\"/>\n      <source file=\"" ++
    imagePath ++ "\"/>\n      <target dev=\"" ++ device ++ "\"/>\n    </disk>"

/-- The domain descriptor rendered by `_make_domain_xml`: the
newline-join of the source template with the `.format` arguments
(`_vm_id()`, memory size, the located qemu executable, `_disk_path`,
vcpu) substituted.  The qemu lookup and its assertion are performed by
the caller (see `create`). -/
def make_domain_xml (qemu vmId diskPath primaryNet primaryMac : String)
    (d : Defn) (extraDisks : List (String × ExtraDisk)) : String :=
  String.intercalate "\n" [
    "<domain type=\"kvm\">",
    "  <name>" ++ vmId ++ "</name>",
    "  <memory unit=\"MiB\">" ++ d.memory_size ++ "</memory>",
    "  <vcpu>" ++ d.vcpu ++ "</vcpu>",
    "  <cpu>",
    "    <topology sockets=\"1\" cores=\"" ++ d.vcpu ++ "\" threads=\"1\"/>",
    "  </cpu>",
    "  <os>",
    "    <type arch=\"x86_64\">hvm</type>",
    "  </os>",
    "  <devices>",
    "    <emulator>" ++ qemu ++ "</emulator>",
    "    <disk type=\"file\" device=\"disk\">",
    "      <driver name=\"qemu\" type=\"qcow2\"/>",
    "      <source file=\"" ++ diskPath ++ "\"/>",
    "      <target dev=\"hda\"/>",
    "    </disk>",
    String.intercalate "\n" (extraDisks.map (fun nd => disk_xml nd.2.imagePath nd.2.device)),
    String.intercalate "\n" (domainIfaces primaryNet primaryMac d.networks),
    if !d.headless then "    <graphics type=\"sdl\" display=\":0.0\"/>" else "",
    "    <input type=\"keyboard\" bus=\"usb\"/>",
    "    <input type=\"mouse\" bus=\"usb\"/>",
    d.extra_devices,
    "  </devices>",
    d.extra_domain,
    "</domain>"
  ]

/-- `_disk_path`: `"{0}/{1}.img".format(defn.image_dir, self._vm_id())`. -/
def disk_path_for (d : Defn) (s : MachineState) : String :=
  d.image_dir ++ "/" ++ vm_id_string s ++ ".img"

/-- The per-extra-disk image path built inside `_copy_extra_disks`:
`"{0}/{1}-{2}.img".format(defn.image_dir, self._vm_id(), disk_name)`. -/
def extra_disk_path (d : Defn) (s : MachineState) (diskName : String) : String :=
  d.image_dir ++ "/" ++ vm_id_string s ++ "-" ++ diskName ++ ".img"

/-- The mapping returned by `_copy_extra_disks`: for each definition disk,
its target device name and the image path just created. -/
def copy_extra_disks_out (d : Defn) (s : MachineState) : List (String × ExtraDisk) :=
  d.disks.map (fun nd => (nd.1, { device := nd.2.device, imagePath := extra_disk_path d s nd.1 }))

/-- The external commands issued by `_copy_extra_disks`, in iteration
order: for each disk, the nix-build of its generated base image followed
by the `qemu-img create` of its qcow2 overlay. -/
def extra_disks_trace : List (String × DiskDefn) → List Event
  | [] => []
  | nd :: rest => Event.extraImageBuild nd.1 :: Event.createExtraDisk nd.1 :: extra_disks_trace rest

/-- `start`: assert the vm id, the persisted descriptor and the primary
network are set; query `virsh list`; when the domain is already running,
only re-resolve the address via the lease table (the reconnect path);
otherwise issue `virsh start` and block in the polling loop until an
address appears.  The source reads `self.primary_mac` inside `_parse_ip`;
an unset MAC is modelled as the empty string, which no `split()` token
ever equals, matching the ValueError fall-through of the source. -/
def start (env : Env) (s : MachineState) : List Event × Except Err MachineState :=
  if !optTruthy s.vm_id then ([], .error .resourceStateError)
  else if !optTruthy s.domain_xml then ([], .error .resourceStateError)
  else if !optTruthy s.primary_net then ([], .error .resourceStateError)
  else if env.running then
    match parse_ip env.leaseTokens (s.primary_mac.getD "") with
    | .error e => ([Event.listCmd, Event.leaseQuery], .error e)
    | .ok ip => ([Event.listCmd, Event.leaseQuery], .ok { s with private_ipv4 := ip })
  else
    let waited := wait_for_ip env.pollOutputs (s.primary_mac.getD "")
    match waited.2 with
    | .error e => (Event.listCmd :: Event.startCmd :: waited.1, .error e)
    | .ok ip => (Event.listCmd :: Event.startCmd :: waited.1, .ok { s with private_ipv4 := some ip })

/-- `stop`: assert the vm id is set; when `virsh list` reports the domain
running, issue the force-stop (`virsh destroy`); either way record the
STOPPED state flag. -/
def stop (env : Env) (s : MachineState) : List Event × Except Err MachineState :=
  if !optTruthy s.vm_id then ([], .error .resourceStateError)
  else if env.running then
    ([Event.listCmd, Event.forceStop], .ok { s with state_flag := StateFlag.stopped })
  else ([Event.listCmd], .ok { s with state_flag := StateFlag.stopped })

/-- `destroy`: a falsy vm id returns success immediately; otherwise stop
the domain, issue `virsh undefine`, delete the primary disk file when the
attribute is truthy and the file exists, and delete each extra disk image
under the same condition.  No attribute of the persisted identity is
cleared. -/
def destroy (env : Env) (s : MachineState) : List Event × Except Err MachineState :=
  if !optTruthy s.vm_id then ([], .ok s)
  else
    let stopped := stop env s
    match stopped.2 with
    | .error e => (stopped.1, .error e)
    | .ok s1 =>
      let primaryT : List Event :=
        match s1.disk_path with
        | some p => if !(p == "") && env.fileExists p then [Event.unlink p] else []
        | none => []
      let extraT : List Event :=
        (s1.extra_disks.filter
            (fun nd => !(nd.2.imagePath == "") && env.fileExists nd.2.imagePath)).map
          (fun nd => Event.unlink nd.2.imagePath)
      (stopped.1 ++ Event.undefine :: (primaryT ++ extraT), .ok s1)

/-- The steps `create` performs before the provisioning guard: read the
first network name into `primary_net` (unconditionally, on every call),
run the MAC-assignment step, and generate the SSH key pair when the
public key is falsy.  Returns the updated state and the trace of the MAC
step. -/
def preSteps (env : Env) (s0 : MachineState) (n0 : String) :
    MachineState × List Event :=
  let s1 : MachineState := { s0 with primary_net := some n0 }
  let macStep := assignMac env.r1 env.r2 env.r3 s1
  let s3 : MachineState :=
    if optTruthy macStep.1.client_public_key then macStep.1
    else { macStep.1 with client_private_key := some env.keyPriv,
                          client_public_key := some env.keyPub }
  (s3, macStep.2)

/-- The state after the provisioning block of `create` succeeds: the
primary disk path recorded, the extra-disk mapping filled, the vm id set
(`_vm_id()`), and the rendered descriptor persisted in `domain_xml`
(rendered with the located qemu executable `q`). -/
def provisionedState (s3 : MachineState) (d : Defn) (q : String) :
    MachineState :=
  let dp := disk_path_for d s3
  let s4 : MachineState := { s3 with disk_path := some dp }
  let s5 : MachineState := { s4 with extra_disks := copy_extra_disks_out d s4 }
  let s6 : MachineState := { s5 with vm_id := some (vm_id_string s5) }
  { s6 with domain_xml := some (make_domain_xml q (vm_id_string s6) dp
      (s6.primary_net.getD "") (s6.primary_mac.getD "") d s6.extra_disks) }

/-- `create`: run the pre-steps (primary network, MAC, key pair), and,
only when `self.vm_id is None`, run the provisioning pipeline: nix-build
the base image, then check `imageDir` writability (raising when
unwritable), copy and rebase the primary disk and restrict its
permissions, provision the extra disks, set the vm id, render and persist
the domain descriptor (asserting the qemu emulator is found) and register
it via `virsh define`.  Finally, in every case, call `start`. -/
def create (env : Env) (s0 : MachineState) (d : Defn) : List Event × Except Err MachineState :=
  match d.networks with
  | [] => ([], .error .configError)
  | n0 :: _ =>
    let pre := preSteps env s0 n0
    let tMac := pre.2
    match pre.1.vm_id with
    | some _ =>
      let started := start env pre.1
      (tMac ++ started.1, started.2)
    | none =>
      if env.writable then
        match env.qemu with
        | none =>
          (tMac ++ [Event.imageBuild, Event.copyPrimary, Event.rebasePrimary, Event.chmodPrimary] ++
             extra_disks_trace d.disks, .error .preconditionError)
        | some q =>
          let started := start env (provisionedState pre.1 d q)
          (tMac ++ [Event.imageBuild, Event.copyPrimary, Event.rebasePrimary, Event.chmodPrimary] ++
             extra_disks_trace d.disks ++ [Event.renderXml, Event.defineDomain] ++ started.1,
           started.2)
      else (tMac ++ [Event.imageBuild], .error .preconditionError)

/-- Events that materialize disk images: the primary-disk copy, rebase
and chmod, and the per-extra-disk image build and creation. -/
def isDiskProvision : Event → Bool
  | .copyPrimary => true
  | .rebasePrimary => true
  | .chmodPrimary => true
  | .extraImageBuild _ => true
  | .createExtraDisk _ => true
  | _ => false

/-- Events that register the domain with the hypervisor. -/
def isRegistration : Event → Bool
  | .defineDomain => true
  | _ => false

/-- Every event of the one-time provisioning pipeline: base-image build,
disk provisioning, descriptor rendering and domain registration. -/
def isProvisionOrRegister : Event → Bool
  | .imageBuild => true
  | .copyPrimary => true
  | .rebasePrimary => true
  | .chmodPrimary => true
  | .extraImageBuild _ => true
  | .createExtraDisk _ => true
  | .renderXml => true
  | .defineDomain => true
  | _ => false

/-- A concrete environment for the executions below: writable image
directory, qemu found, domain reported running, a lease table holding the
MAC that `r1 = r2 = r3 = 0` generates, every file present. -/
def exEnv : Env :=
  { writable := true
    qemu := some "/usr/bin/qemu-system-x86_64"
    running := true
    leaseTokens := ["52:54:00:00:00:00", "ipv4", "10.0.2.15/24"]
    pollOutputs := []
    fileExists := fun _ => true
    r1 := 0
    r2 := 0
    r3 := 0
    keyPub := "ssh-ed25519 AAAA"
    keyPriv := "PRIVATE KEY" }

/-- The same environment with an unwritable image directory. -/
def exEnvUnwritable : Env :=
  { exEnv with writable := false }

/-- A concrete definition whose first (and only) network is `netA`. -/
def exDefnA : Defn :=
  { vcpu := "2"
    memory_size := "1024"
    extra_devices := ""
    extra_domain := ""
    headless := true
    image_dir := "/var/lib/libvirt/images"
    networks := ["netA"]
    disks := [] }

/-- The same definition with first network `netB` instead. -/
def exDefnB : Defn :=
  { exDefnA with networks := ["netB"] }

/-- The machine state produced by a first, completed `create` of the
fresh machine `(u, m)` against `exDefnA` under `exEnv`. -/
def exS1 : MachineState :=
  ((create exEnv (fresh "u" "m") exDefnA).2).toOption.getD (fresh "u" "m")

/-- A machine state whose primary MAC is already set. -/
def exSMac : MachineState :=
  { fresh "u" "m" with primary_mac := some "52:54:00:aa:bb:cc" }

/-- A provisioned machine state about to be destroyed: vm id, primary
disk path and one extra disk set. -/
def exSD : MachineState :=
  { fresh "u" "m" with
      vm_id := some "nixops-u-m"
      disk_path := some "/var/lib/libvirt/images/nixops-u-m.img"
      extra_disks := [("data",
        { device := "vdb", imagePath := "/var/lib/libvirt/images/nixops-u-m-data.img" })] }

/-- A raw configuration whose single disk entry carries the optional
baseImage attribute besides the required device and size. -/
def exRawWithBase : RawConfig :=
  { vcpu := some "2"
    memory_size := some "1024"
    extra_devices := some ""
    extra_domain := some ""
    headless := some "true"
    image_dir := some "/var/lib/libvirt/images"
    networks := ["default"]
    disks := [("data",
      { device := some "vdb", size := some "10", baseImage := some "/base/disk.qcow2" })] }

/-! ## Helper lemmas -/

/-- Each formatted octet group has exactly two characters. -/
theorem hex2_length (n : Nat) : (hex2 n).length = 2 := rfl

/-- A generated MAC string is nonempty (it has seventeen characters). -/
theorem generate_primary_mac_ne_empty (r1 : Fin 128) (r2 r3 : Fin 256) :
    generate_primary_mac r1 r2 r3 ≠ "" := by
  intro h
  have h2 := congrArg String.length h
  simp only [generate_primary_mac, String.length_append, hex2_length] at h2
  have e1 : (":" : String).length = 1 := rfl
  have e2 : ("" : String).length = 0 := rfl
  omega

/-- The vm id string is nonempty. -/
theorem vm_id_string_ne_empty (s : MachineState) : vm_id_string s ≠ "" := by
  intro h
  have h2 := congrArg String.length h
  simp only [vm_id_string, String.length_append] at h2
  have e1 : ("nixops-" : String).length = 7 := rfl
  have e2 : ("-" : String).length = 1 := rfl
  have e3 : ("" : String).length = 0 := rfl
  omega

/-- The rendered mac element is nonempty. -/
theorem mac_attr_ne_empty (pm : String) :
    ("<mac address=\"" ++ pm ++ "\" />") ≠ "" := by
  intro h
  have h2 := congrArg String.length h
  rw [String.length_append, String.length_append] at h2
  have e1 : ("<mac address=\"" : String).length = 14 := rfl
  have e2 : ("\" />" : String).length = 4 := rfl
  have e3 : ("" : String).length = 0 := rfl
  omega

/-- A rendered interface element carries the mac attribute exactly when
its network is the primary network. -/
theorem ifaceCarriesMac_iff (pn pm n : String) :
    ifaceCarriesMac pn pm n = true ↔ n = pn := by
  unfold ifaceCarriesMac maybe_mac
  by_cases h : n = pn
  · simp [h, mac_attr_ne_empty pm]
  · simp [h]

/-- The number of mac-carrying interfaces equals the number of
occurrences of the primary network in the network list. -/
theorem macCount_eq_count (pn pm : String) :
    ∀ networks : List String, macCount pn pm networks = networks.count pn
  | [] => rfl
  | n :: rest => by
    have ih := macCount_eq_count pn pm rest
    unfold macCount at ih ⊢
    rw [List.countP_cons, List.count_cons, ih]
    by_cases h : n = pn
    · have hc : ifaceCarriesMac pn pm n = true := (ifaceCarriesMac_iff pn pm n).mpr h
      simp [hc, h]
      exact (ifaceCarriesMac_iff pn pm pn).mpr rfl
    · have hc : ifaceCarriesMac pn pm n = false := by
        cases ht : ifaceCarriesMac pn pm n
        · rfl
        · exact absurd ((ifaceCarriesMac_iff pn pm n).mp ht) h
      have h2 : ¬ pn = n := fun he => h he.symm
      simp [hc, h2]
      exact h

/-- The rendered interface list has one element per network, and the
element at each position is the rendered interface of the network at the
same position. -/
theorem domainIfaces_getD (pn pm : String) :
    ∀ (l : List String) (i : Nat), i < l.length →
      (domainIfaces pn pm l).getD i "" = iface pn pm (l.getD i "")
  | [], i, h => absurd h (by simp)
  | a :: l, 0, _ => rfl
  | a :: l, i + 1, h => domainIfaces_getD pn pm l i (by simpa using h)

/-- A MAC absent from the token list has no first index. -/
theorem firstIndexOf_eq_none (tokens : List String) (x : String)
    (h : x ∉ tokens) : firstIndexOf tokens x = none := by
  induction tokens with
  | nil => rfl
  | cons t rest ih =>
    simp only [List.mem_cons, not_or] at h
    have hne : (t == x) = false := by
      simp only [beq_eq_false_iff_ne, ne_eq]
      exact fun he => h.1 he.symm
    simp [firstIndexOf, hne, ih h.2]

/-- Every event of the polling loop is a lease query. -/
theorem wait_for_ip_trace (polls : List (List String)) (mac : String) :
    ∀ e ∈ (wait_for_ip polls mac).1, e = Event.leaseQuery := by
  induction polls with
  | nil => simp [wait_for_ip]
  | cons toks rest ih =>
    intro e he
    unfold wait_for_ip at he
    rcases hp : parse_ip toks mac with e1 | ip
    · rw [hp] at he
      simpa using he
    · rw [hp] at he
      rcases ip with _ | ip
      · dsimp only at he
        rcases List.mem_cons.mp he with h1 | h1
        · exact h1
        · exact ih e h1
      · dsimp only at he
        by_cases hemp : (ip == "") = true
        · rw [if_pos hemp] at he
          rcases List.mem_cons.mp he with h1 | h1
          · exact h1
          · exact ih e h1
        · rw [if_neg hemp] at he
          simpa using he

/-- Every event of `start` is the running-check, the start command or a
lease query. -/
theorem start_trace (env : Env) (s : MachineState) :
    ∀ e ∈ (start env s).1,
      e = Event.listCmd ∨ e = Event.startCmd ∨ e = Event.leaseQuery := by
  intro e he
  unfold start at he
  cases h1 : optTruthy s.vm_id <;> rw [h1] at he
  · simp at he
  · cases h2 : optTruthy s.domain_xml <;> rw [h2] at he
    · simp at he
    · cases h3 : optTruthy s.primary_net <;> rw [h3] at he
      · simp at he
      · simp only [Bool.not_true, Bool.false_eq_true, if_false] at he
        cases hr : env.running <;> rw [hr] at he
        · simp only [Bool.false_eq_true, if_false] at he
          rcases hw : (wait_for_ip env.pollOutputs (s.primary_mac.getD "")).2 with e1 | ip <;>
            rw [hw] at he <;> dsimp only at he
          · rcases List.mem_cons.mp he with h4 | h4
            · exact Or.inl h4
            rcases List.mem_cons.mp h4 with h5 | h5
            · exact Or.inr (Or.inl h5)
            · exact Or.inr (Or.inr (wait_for_ip_trace env.pollOutputs _ e h5))
          · rcases List.mem_cons.mp he with h4 | h4
            · exact Or.inl h4
            rcases List.mem_cons.mp h4 with h5 | h5
            · exact Or.inr (Or.inl h5)
            · exact Or.inr (Or.inr (wait_for_ip_trace env.pollOutputs _ e h5))
        · simp only [if_true] at he
          rcases hp : parse_ip env.leaseTokens (s.primary_mac.getD "") with e1 | ip <;>
            rw [hp] at he <;> dsimp only at he <;>
            simp only [List.mem_cons, List.not_mem_nil, or_false] at he <;> tauto

/-- `start` issues no provisioning or registration command. -/
theorem start_countP_zero (env : Env) (s : MachineState) (p : Event → Bool)
    (h1 : p Event.listCmd = false) (h2 : p Event.startCmd = false)
    (h3 : p Event.leaseQuery = false) :
    (start env s).1.countP p = 0 := by
  rw [List.countP_eq_zero]
  intro e he
  rcases start_trace env s e he with h | h | h <;> simp [h, h1, h2, h3]

/-- The extra-disk provisioning trace counts zero for any predicate that
ignores its two event kinds. -/
theorem extra_disks_trace_countP (p : Event → Bool)
    (h1 : ∀ nm, p (Event.extraImageBuild nm) = false)
    (h2 : ∀ nm, p (Event.createExtraDisk nm) = false) :
    ∀ l : List (String × DiskDefn), (extra_disks_trace l).countP p = 0
  | [] => by simp [extra_disks_trace]
  | nd :: rest => by
    simp [extra_disks_trace, List.countP_cons, h1, h2,
      extra_disks_trace_countP p h1 h2 rest]

/-- A successful `start` changes no attribute besides `private_ipv4`. -/
theorem start_preserves (env : Env) (s s2 : MachineState)
    (h : (start env s).2 = .ok s2) :
    s2.depl_uuid = s.depl_uuid ∧ s2.name = s.name ∧
    s2.client_public_key = s.client_public_key ∧
    s2.client_private_key = s.client_private_key ∧
    s2.primary_net = s.primary_net ∧ s2.primary_mac = s.primary_mac ∧
    s2.domain_xml = s.domain_xml ∧ s2.disk_path = s.disk_path ∧
    s2.extra_disks = s.extra_disks ∧ s2.vm_id = s.vm_id ∧
    s2.state_flag = s.state_flag := by
  unfold start at h
  cases h1 : optTruthy s.vm_id <;> rw [h1] at h
  · simp at h
  · cases h2 : optTruthy s.domain_xml <;> rw [h2] at h
    · simp at h
    · cases h3 : optTruthy s.primary_net <;> rw [h3] at h
      · simp at h
      · simp only [Bool.not_true, Bool.false_eq_true, if_false] at h
        cases hr : env.running <;> rw [hr] at h
        · simp only [Bool.false_eq_true, if_false] at h
          rcases hw : (wait_for_ip env.pollOutputs (s.primary_mac.getD "")).2 with e1 | ip <;>
            rw [hw] at h <;> dsimp only at h
          · simp at h
          · rw [Except.ok.injEq] at h
            subst h
            simp
        · simp only [if_true] at h
          rcases hp : parse_ip env.leaseTokens (s.primary_mac.getD "") with e1 | ip <;>
            rw [hp] at h <;> dsimp only at h
          · simp at h
          · rw [Except.ok.injEq] at h
            subst h
            simp

/-- The MAC-assignment step touches no attribute besides `primary_mac`. -/
theorem assignMac_preserves (r1 : Fin 128) (r2 r3 : Fin 256) (s : MachineState) :
    (assignMac r1 r2 r3 s).1.depl_uuid = s.depl_uuid ∧
    (assignMac r1 r2 r3 s).1.name = s.name ∧
    (assignMac r1 r2 r3 s).1.private_ipv4 = s.private_ipv4 ∧
    (assignMac r1 r2 r3 s).1.client_public_key = s.client_public_key ∧
    (assignMac r1 r2 r3 s).1.client_private_key = s.client_private_key ∧
    (assignMac r1 r2 r3 s).1.primary_net = s.primary_net ∧
    (assignMac r1 r2 r3 s).1.domain_xml = s.domain_xml ∧
    (assignMac r1 r2 r3 s).1.disk_path = s.disk_path ∧
    (assignMac r1 r2 r3 s).1.extra_disks = s.extra_disks ∧
    (assignMac r1 r2 r3 s).1.vm_id = s.vm_id ∧
    (assignMac r1 r2 r3 s).1.state_flag = s.state_flag := by
  unfold assignMac
  split <;> simp

/-- After the MAC-assignment step the primary MAC is a truthy string. -/
theorem assignMac_truthy (r1 : Fin 128) (r2 r3 : Fin 256) (s : MachineState) :
    optTruthy (assignMac r1 r2 r3 s).1.primary_mac = true := by
  unfold assignMac
  split
  · assumption
  · simp [optTruthy, generate_primary_mac_ne_empty r1 r2 r3]

/-- With a truthy MAC already stored, the assignment step is the
identity and issues nothing. -/
theorem assignMac_noop (r1 : Fin 128) (r2 r3 : Fin 256) (s : MachineState)
    (h : optTruthy s.primary_mac = true) : assignMac r1 r2 r3 s = (s, []) := by
  unfold assignMac
  rw [if_pos h]

/-- The MAC-assignment step only (possibly) rewrites `primary_mac`. -/
theorem assignMac_state (r1 : Fin 128) (r2 r3 : Fin 256) (s : MachineState) :
    (assignMac r1 r2 r3 s).1 =
      { s with primary_mac := (assignMac r1 r2 r3 s).1.primary_mac } := by
  unfold assignMac
  split <;> rfl

/-- Field effects of the pre-steps of `create`: the primary network is
re-pointed at the supplied first network, the MAC is made truthy, the
public key is filled when falsy, and every other attribute is kept. -/
theorem preSteps_fields (env : Env) (s : MachineState) (n0 : String) :
    (preSteps env s n0).1.vm_id = s.vm_id ∧
    (preSteps env s n0).1.depl_uuid = s.depl_uuid ∧
    (preSteps env s n0).1.name = s.name ∧
    (preSteps env s n0).1.primary_net = some n0 ∧
    (preSteps env s n0).1.disk_path = s.disk_path ∧
    (preSteps env s n0).1.domain_xml = s.domain_xml ∧
    (preSteps env s n0).1.extra_disks = s.extra_disks ∧
    (preSteps env s n0).1.primary_mac =
      (assignMac env.r1 env.r2 env.r3 { s with primary_net := some n0 }).1.primary_mac ∧
    optTruthy (preSteps env s n0).1.primary_mac = true ∧
    (preSteps env s n0).1.client_public_key =
      (if optTruthy s.client_public_key then s.client_public_key else some env.keyPub) := by
  unfold preSteps
  dsimp only
  rw [assignMac_state env.r1 env.r2 env.r3 { s with primary_net := some n0 }]
  split <;>
    simp [assignMac_truthy env.r1 env.r2 env.r3 { s with primary_net := some n0 }]

/-- The trace of the pre-steps is the MAC-assignment trace. -/
theorem preSteps_trace (env : Env) (s : MachineState) (n0 : String) :
    (preSteps env s n0).2 =
      (assignMac env.r1 env.r2 env.r3 { s with primary_net := some n0 }).2 := rfl

/-- With a truthy MAC and public key already stored, the pre-steps only
re-point the primary network and issue nothing. -/
theorem preSteps_noop (env : Env) (s : MachineState) (n0 : String)
    (hm : optTruthy s.primary_mac = true)
    (hk : optTruthy s.client_public_key = true) :
    preSteps env s n0 = ({ s with primary_net := some n0 }, []) := by
  unfold preSteps
  dsimp only
  rw [assignMac_noop env.r1 env.r2 env.r3 { s with primary_net := some n0 } hm]
  simp [hk]

/-- Field effects of the provisioning block. -/
theorem provisionedState_fields (s3 : MachineState) (d : Defn) (q : String) :
    (provisionedState s3 d q).vm_id = some (vm_id_string s3) ∧
    (provisionedState s3 d q).primary_net = s3.primary_net ∧
    (provisionedState s3 d q).primary_mac = s3.primary_mac ∧
    (provisionedState s3 d q).client_public_key = s3.client_public_key ∧
    (provisionedState s3 d q).depl_uuid = s3.depl_uuid ∧
    (provisionedState s3 d q).name = s3.name ∧
    (provisionedState s3 d q).disk_path = some (disk_path_for d s3) := by
  unfold provisionedState
  refine ⟨?_, rfl, rfl, rfl, rfl, rfl, rfl⟩
  rfl

/-- Unfolding of `create` on a state whose vm id is set: after the
pre-steps, control passes directly to `start`; no provisioning branch is
entered. -/
theorem create_provisioned_eq (env : Env) (s : MachineState) (d : Defn)
    (n0 : String) (ns : List String) (v : String)
    (hnet : d.networks = n0 :: ns) (hvm : s.vm_id = some v) :
    create env s d =
      ((preSteps env s n0).2 ++ (start env (preSteps env s n0).1).1,
       (start env (preSteps env s n0).1).2) := by
  unfold create
  rw [hnet]
  dsimp only
  rw [(preSteps_fields env s n0).1, hvm]

/-- Unfolding of `create` on an unprovisioned state with writable image
directory and located qemu executable: the full provisioning pipeline
runs, followed by `start` on the provisioned state. -/
theorem create_unprovisioned_eq (env : Env) (s : MachineState) (d : Defn)
    (n0 : String) (ns : List String) (q : String)
    (hnet : d.networks = n0 :: ns) (hvm : s.vm_id = none)
    (hw : env.writable = true) (hq : env.qemu = some q) :
    create env s d =
      ((preSteps env s n0).2 ++
         [Event.imageBuild, Event.copyPrimary, Event.rebasePrimary, Event.chmodPrimary] ++
         extra_disks_trace d.disks ++ [Event.renderXml, Event.defineDomain] ++
         (start env (provisionedState (preSteps env s n0).1 d q)).1,
       (start env (provisionedState (preSteps env s n0).1 d q)).2) := by
  unfold create
  rw [hnet]
  dsimp only
  rw [(preSteps_fields env s n0).1, hvm, hw, hq]
  rfl

/-- Unfolding of `create` on an unprovisioned state with unwritable image
directory: the base image is built, then the writability check raises. -/
theorem create_unwritable_eq (env : Env) (s : MachineState) (d : Defn)
    (n0 : String) (ns : List String)
    (hnet : d.networks = n0 :: ns) (hvm : s.vm_id = none)
    (hw : env.writable = false) :
    create env s d =
      ((preSteps env s n0).2 ++ [Event.imageBuild], .error .preconditionError) := by
  unfold create
  rw [hnet]
  dsimp only
  rw [(preSteps_fields env s n0).1, hvm, hw]
  rfl

/-- Unfolding of `create` on an unprovisioned state when the qemu
executable cannot be located: the disks are provisioned and the
descriptor-render assertion then raises. -/
theorem create_no_qemu_eq (env : Env) (s : MachineState) (d : Defn)
    (n0 : String) (ns : List String)
    (hnet : d.networks = n0 :: ns) (hvm : s.vm_id = none)
    (hw : env.writable = true) (hq : env.qemu = none) :
    create env s d =
      ((preSteps env s n0).2 ++
         [Event.imageBuild, Event.copyPrimary, Event.rebasePrimary, Event.chmodPrimary] ++
         extra_disks_trace d.disks, .error .preconditionError) := by
  unfold create
  rw [hnet]
  dsimp only
  rw [(preSteps_fields env s n0).1, hvm, hw, hq]
  rfl

/-- C4, counterexample: the fourth MAC octet cannot reach the upper half
of the octet range — no random draw produces the address whose fourth
octet is 0xff, because the source draws it with `randint(0x00, 0x7f)`.
This refutes the claim that the three random octets range over the full
0x00..0xff interval. -/
theorem claim_C4_counterexample :
    ¬ ∃ (r1 : Fin 128) (r2 r3 : Fin 256),
        macOctets r1 r2 r3 = [0x52, 0x54, 0x00, 0xff, 0x00, 0x00] := by
  rintro ⟨r1, r2, r3, h⟩
  have h4 : r1.val = 0xff := by
    simpa [macOctets] using congrArg (fun l => l.getD 3 0) h
  have hlt := r1.isLt
  omega

/-- C4, amended: every generated MAC has the fixed prefix 52:54:00, its
fourth octet ranges exactly over 0x00..0x7f, and its last two octets
range exactly over 0x00..0xff. -/
theorem claim_C4_mac_prefix_ranges :
    (∀ (r1 : Fin 128) (r2 r3 : Fin 256),
        (macOctets r1 r2 r3).take 3 = [0x52, 0x54, 0x00] ∧
        (macOctets r1 r2 r3).getD 3 0 ≤ 0x7f ∧
        (macOctets r1 r2 r3).getD 4 0 ≤ 0xff ∧
        (macOctets r1 r2 r3).getD 5 0 ≤ 0xff ∧
        generate_primary_mac r1 r2 r3 =
          "52:54:00:" ++ hex2 r1.val ++ ":" ++ hex2 r2.val ++ ":" ++ hex2 r3.val) ∧
    (∀ a b c : Nat, a ≤ 0x7f → b ≤ 0xff → c ≤ 0xff →
        ∃ (r1 : Fin 128) (r2 r3 : Fin 256),
          macOctets r1 r2 r3 = [0x52, 0x54, 0x00, a, b, c]) := by
  constructor
  · intro r1 r2 r3
    refine ⟨rfl, ?_, ?_, ?_, rfl⟩
    · have := r1.isLt
      simp only [macOctets, List.getD]
      simp
      omega
    · have := r2.isLt
      simp only [macOctets, List.getD]
      simp
      omega
    · have := r3.isLt
      simp only [macOctets, List.getD]
      simp
      omega
  · intro a b c ha hb hc
    exact ⟨⟨a, by omega⟩, ⟨b, by omega⟩, ⟨c, by omega⟩, rfl⟩

/-- C4, witness: the fixed prefix at a concrete draw, and the largest
producible octet triple. -/
theorem claim_C4_witness :
    (macOctets 0 0 0).take 3 = [0x52, 0x54, 0x00] ∧
    ∃ (r1 : Fin 128) (r2 r3 : Fin 256),
      macOctets r1 r2 r3 = [0x52, 0x54, 0x00, 0x7f, 0xff, 0xff] :=
  ⟨(claim_C4_mac_prefix_ranges.1 0 0 0).1,
   claim_C4_mac_prefix_ranges.2 0x7f 0xff 0xff (by decide) (by decide) (by decide)⟩

/-- C6: a disk entry with device and size parses, and the whole
definition parses around it; but a disk entry that additionally carries
the optional baseImage attribute raises AttributeError (the source
assigns an attribute on a dict), so supplying baseImage makes parsing
fail, contrary to the claim.  The claim matches the evident intent of the
dedicated baseImage branch; the dict attribute assignment is a slip. -/
theorem claim_C6_baseImage_attributeError :
    parse_disk { device := some "vdb", size := some "10", baseImage := none } =
      .ok { device := "vdb", size := "10" } ∧
    parse_disk
        { device := some "vdb", size := some "10", baseImage := some "/base/disk.qcow2" } =
      .error .attributeError ∧
    parse_definition
        { exRawWithBase with
            disks := [("data", { device := some "vdb", size := some "10", baseImage := none })] } =
      .ok { vcpu := "2", memory_size := "1024", extra_devices := "",
            extra_domain := "", headless := true,
            image_dir := "/var/lib/libvirt/images", networks := ["default"],
            disks := [("data", { device := "vdb", size := "10" })] } ∧
    parse_definition exRawWithBase = .error .attributeError :=
  ⟨rfl, rfl, rfl, rfl⟩

/-- C7, counterexample: with the network list listing the primary network
twice, two interface elements of the rendered descriptor carry a mac
attribute, refuting the claim that exactly one interface element carries
one in every rendered descriptor. -/
theorem claim_C7_counterexample :
    macCount "default" "52:54:00:12:34:56" ["default", "default"] = 2 ∧
    ¬ macCount "default" "52:54:00:12:34:56" ["default", "default"] = 1 := by
  constructor
  · rfl
  · decide

/-- C7, amended: the rendered descriptor has one interface element per
network, in list order; an interface element carries the mac attribute
exactly when its network equals the primary network, in which case the
attribute value is the primary MAC, and all other interface elements omit
it; hence the number of mac-carrying interfaces equals the number of
occurrences of the primary network in the network list (one exactly when
the primary network occurs exactly once). -/
theorem claim_C7_interface_mac (pn pm : String) (networks : List String) :
    (domainIfaces pn pm networks).length = networks.length ∧
    (∀ i : Nat, i < networks.length →
      (domainIfaces pn pm networks).getD i "" = iface pn pm (networks.getD i "")) ∧
    (∀ n, ifaceCarriesMac pn pm n = true ↔ n = pn) ∧
    maybe_mac pn pm pn = "<mac address=\"" ++ pm ++ "\" />" ∧
    (∀ n, n ≠ pn → maybe_mac pn pm n = "") ∧
    macCount pn pm networks = networks.count pn := by
  refine ⟨by simp [domainIfaces], domainIfaces_getD pn pm networks,
    fun n => ifaceCarriesMac_iff pn pm n, ?_, ?_, macCount_eq_count pn pm networks⟩
  · unfold maybe_mac
    rw [if_pos rfl]
  · intro n hn
    unfold maybe_mac
    rw [if_neg hn]

/-- C7, witness: on the two-network scenario of the specification, the
non-primary interface omits the mac attribute and exactly one interface
carries one. -/
theorem claim_C7_witness :
    maybe_mac "default" "52:54:00:12:34:56" "isolated" = "" ∧
    macCount "default" "52:54:00:12:34:56" ["default", "isolated"] = 1 := by
  have h := claim_C7_interface_mac "default" "52:54:00:12:34:56" ["default", "isolated"]
  exact ⟨h.2.2.2.2.1 "isolated" (by decide), h.2.2.2.2.2.trans (by decide)⟩

/-- C9: when the queried MAC first occurs at a position followed by at
least two further tokens, the lease parse returns the token two positions
later with its subnet suffix stripped; when no token equals the MAC, it
returns the not-found value without raising. -/
theorem claim_C9_parse_ip :
    (∀ (tokens : List String) (mac : String) (i : Nat),
        firstIndexOf tokens mac = some i → i + 2 < tokens.length →
        parse_ip tokens mac = .ok (some (strip_subnet (tokens.getD (i + 2) "")))) ∧
    (∀ (tokens : List String) (mac : String),
        mac ∉ tokens → parse_ip tokens mac = .ok none) := by
  constructor
  · intro tokens mac i hfi hlt
    unfold parse_ip
    rw [hfi]
    dsimp only
    rw [if_pos hlt]
  · intro tokens mac h
    unfold parse_ip
    rw [firstIndexOf_eq_none tokens mac h]

/-- C9, witness: a concrete three-token lease row and an absent MAC. -/
theorem claim_C9_witness :
    parse_ip ["52:54:00:aa:bb:cc", "ipv4", "10.0.2.15/24"] "52:54:00:aa:bb:cc" =
      .ok (some "10.0.2.15") ∧
    parse_ip ["52:54:00:aa:bb:cc", "ipv4", "10.0.2.15/24"] "52:54:00:aa:bb:ff" =
      .ok none := by
  constructor
  · exact (claim_C9_parse_ip.1 ["52:54:00:aa:bb:cc", "ipv4", "10.0.2.15/24"]
      "52:54:00:aa:bb:cc" 0 rfl (by decide)).trans rfl
  · exact claim_C9_parse_ip.2 ["52:54:00:aa:bb:cc", "ipv4", "10.0.2.15/24"]
      "52:54:00:aa:bb:ff" (by decide)

/-- C10, counterexample: a lease output in which the queried MAC equals
the last whitespace token, yet the parse neither raises nor returns the
not-found value — it returns the address found after the earlier, first
occurrence of the MAC.  This refutes the claim that every output whose
last-two tokens contain the MAC raises an indexing error: only the first
occurrence is looked up. -/
theorem claim_C10_counterexample :
    ["52:54:00:aa:bb:cc", "ipv4", "10.0.2.15/24", "52:54:00:aa:bb:cc"].getLast? =
      some "52:54:00:aa:bb:cc" ∧
    parse_ip ["52:54:00:aa:bb:cc", "ipv4", "10.0.2.15/24", "52:54:00:aa:bb:cc"]
      "52:54:00:aa:bb:cc" = .ok (some "10.0.2.15") :=
  ⟨rfl, rfl⟩

/-- C10, amended: the lease parse is total only when the first token
equal to the queried MAC is followed by at least two further tokens; when
that first occurrence sits within the last two positions, the
index-plus-two lookup is out of bounds and the operation raises an
indexing error instead of returning the not-found value. -/
theorem claim_C10_first_match_bounds :
    ∀ (tokens : List String) (mac : String) (i : Nat),
      firstIndexOf tokens mac = some i → tokens.length ≤ i + 2 →
      parse_ip tokens mac = .error .indexError := by
  intro tokens mac i hfi hge
  unfold parse_ip
  rw [hfi]
  dsimp only
  rw [if_neg (by omega)]

/-- C10, witness: the MAC is the second-to-last token of a two-token
output, so the lookup raises. -/
theorem claim_C10_witness :
    parse_ip ["ipv4", "52:54:00:aa:bb:cc"] "52:54:00:aa:bb:cc" = .error .indexError :=
  claim_C10_first_match_bounds ["ipv4", "52:54:00:aa:bb:cc"] "52:54:00:aa:bb:cc" 1
    rfl (by decide)

/-- C2, counterexample: destroying a provisioned machine stops it,
undefines it and deletes its disk files, but leaves vm id set in the
resulting state — `destroy` clears no attribute, so the claimed
transition to a state with vm id unset does not happen. -/
theorem claim_C2_counterexample :
    Event.undefine ∈ (destroy exEnv exSD).1 ∧
    Event.unlink "/var/lib/libvirt/images/nixops-u-m.img" ∈ (destroy exEnv exSD).1 ∧
    Event.unlink "/var/lib/libvirt/images/nixops-u-m-data.img" ∈ (destroy exEnv exSD).1 ∧
    ((destroy exEnv exSD).2.toOption.getD (fresh "" "")).vm_id = some "nixops-u-m" := by
  refine ⟨by decide, by decide, by decide, rfl⟩

/-- C2, amended: on a state with a truthy vm id, destroy stops the
domain (issuing the force-stop exactly when the hypervisor reports it
running), issues the undefine command, deletes exactly the primary disk
file (when set, nonempty and existing) and the extra disk images (when
nonempty and existing), and succeeds — but the resulting state keeps the
vm id (and every other attribute except the STOPPED flag): clearing the
identity is left to the surrounding deployment layer. -/
theorem claim_C2_destroy_behavior (env : Env) (s : MachineState) (v : String)
    (hv : s.vm_id = some v) (hne : v ≠ "") :
    (destroy env s).2 = .ok { s with state_flag := StateFlag.stopped } ∧
    Event.undefine ∈ (destroy env s).1 ∧
    (Event.forceStop ∈ (destroy env s).1 ↔ env.running = true) ∧
    (∀ p : String, Event.unlink p ∈ (destroy env s).1 ↔
      ((s.disk_path = some p ∧ p ≠ "" ∧ env.fileExists p = true) ∨
       (∃ nd ∈ s.extra_disks, nd.2.imagePath = p ∧ p ≠ "" ∧ env.fileExists p = true))) := by
  have htr : optTruthy s.vm_id = true := by
    rw [hv]
    simp [optTruthy, hne]
  have hstop : stop env s =
      (if env.running then [Event.listCmd, Event.forceStop] else [Event.listCmd],
       .ok { s with state_flag := StateFlag.stopped }) := by
    unfold stop
    rw [htr]
    cases hr : env.running <;> simp
  have hdes : destroy env s =
      ((if env.running then [Event.listCmd, Event.forceStop] else [Event.listCmd]) ++
         Event.undefine ::
           ((match s.disk_path with
             | some p => if !(p == "") && env.fileExists p then [Event.unlink p] else []
             | none => []) ++
            (s.extra_disks.filter
               (fun nd => !(nd.2.imagePath == "") && env.fileExists nd.2.imagePath)).map
              (fun nd => Event.unlink nd.2.imagePath)),
       .ok { s with state_flag := StateFlag.stopped }) := by
    unfold destroy
    rw [htr]
    dsimp only
    rw [hstop]
    rfl
  rw [hdes]
  refine ⟨rfl, ?_, ?_, ?_⟩
  · simp
  · cases hr : env.running <;> simp
    rcases s.disk_path with _ | dp
    · simp
    · split <;> simp
  · intro p
    cases hr : env.running <;>
      rcases hdp : s.disk_path with _ | dp <;>
      simp [List.mem_filter]
    case false.none | true.none =>
      constructor
      · rintro ⟨a, b, ⟨hm, h1, h2⟩, rfl⟩
        exact ⟨a, b, hm, rfl, h1, h2⟩
      · rintro ⟨a, b, hm, rfl, h1, h2⟩
        exact ⟨a, b, ⟨hm, h1, h2⟩, rfl⟩
    case false.some | true.some =>
      constructor
      · rintro (⟨⟨h1, h2⟩, rfl⟩ | ⟨a, b, ⟨hm, h1, h2⟩, rfl⟩)
        · exact Or.inl ⟨rfl, h1, h2⟩
        · exact Or.inr ⟨a, b, hm, rfl, h1, h2⟩
      · rintro (⟨rfl, h1, h2⟩ | ⟨a, b, hm, rfl, h1, h2⟩)
        · exact Or.inl ⟨⟨h1, h2⟩, rfl⟩
        · exact Or.inr ⟨a, b, ⟨hm, h1, h2⟩, rfl⟩

/-- The MAC-assignment step issues either nothing or exactly one
generation event. -/
theorem assignMac_trace_cases (r1 : Fin 128) (r2 r3 : Fin 256) (s : MachineState) :
    (assignMac r1 r2 r3 s).2 = [] ∨ (assignMac r1 r2 r3 s).2 = [Event.generateMac] := by
  unfold assignMac
  split
  · exact Or.inl rfl
  · exact Or.inr rfl

/-- C3, counterexample: a first-time create with unwritable imageDir does
fail with the precondition error, but its trace already contains the
base-image build — the external image-build collaborator is invoked
before the writability validation, refuting the claimed order. -/
theorem claim_C3_counterexample :
    (create exEnvUnwritable (fresh "u" "m") exDefnA).2 = .error .preconditionError ∧
    Event.imageBuild ∈ (create exEnvUnwritable (fresh "u" "m") exDefnA).1 := by
  exact ⟨rfl, by decide⟩

/-- C3, amended: a first-time create (vm id unset) whose imageDir is not
writable fails with the precondition error before any disk provisioning
or domain registration, but only after invoking the external image-build
collaborator once: the base-image build precedes the writability
validation, not the other way round. -/
theorem claim_C3_unwritable_imageDir (env : Env) (s : MachineState) (d : Defn)
    (n0 : String) (ns : List String)
    (hnet : d.networks = n0 :: ns) (hvm : s.vm_id = none)
    (hw : env.writable = false) :
    (create env s d).2 = .error .preconditionError ∧
    Event.imageBuild ∈ (create env s d).1 ∧
    (create env s d).1.countP (fun e => e == Event.imageBuild) = 1 ∧
    (create env s d).1.countP isDiskProvision = 0 ∧
    (create env s d).1.countP isRegistration = 0 := by
  rw [create_unwritable_eq env s d n0 ns hnet hvm hw, preSteps_trace]
  rcases assignMac_trace_cases env.r1 env.r2 env.r3 { s with primary_net := some n0 }
      with h | h <;> rw [h] <;>
    exact ⟨rfl, by decide, by decide, by decide, by decide⟩

/-- C3, witness: concrete unwritable environment on an unprovisioned
machine whose MAC is already assigned. -/
theorem claim_C3_witness :
    (create exEnvUnwritable exSMac exDefnA).2 = .error .preconditionError ∧
    (create exEnvUnwritable exSMac exDefnA).1.countP isDiskProvision = 0 := by
  have h := claim_C3_unwritable_imageDir exEnvUnwritable exSMac exDefnA "netA" [] rfl rfl rfl
  exact ⟨h.1, h.2.2.2.1⟩

/-- Result-only form of `create_provisioned_eq`. -/
theorem create_provisioned_snd (env : Env) (s : MachineState) (d : Defn)
    (n0 : String) (ns : List String) (v : String)
    (hnet : d.networks = n0 :: ns) (hvm : s.vm_id = some v) :
    (create env s d).2 = (start env (preSteps env s n0).1).2 := by
  rw [create_provisioned_eq env s d n0 ns v hnet hvm]

/-- Trace-only form of `create_provisioned_eq`. -/
theorem create_provisioned_fst (env : Env) (s : MachineState) (d : Defn)
    (n0 : String) (ns : List String) (v : String)
    (hnet : d.networks = n0 :: ns) (hvm : s.vm_id = some v) :
    (create env s d).1 = (preSteps env s n0).2 ++ (start env (preSteps env s n0).1).1 := by
  rw [create_provisioned_eq env s d n0 ns v hnet hvm]

/-- Result-only form of `create_unprovisioned_eq`. -/
theorem create_unprovisioned_snd (env : Env) (s : MachineState) (d : Defn)
    (n0 : String) (ns : List String) (q : String)
    (hnet : d.networks = n0 :: ns) (hvm : s.vm_id = none)
    (hw : env.writable = true) (hq : env.qemu = some q) :
    (create env s d).2 = (start env (provisionedState (preSteps env s n0).1 d q)).2 := by
  rw [create_unprovisioned_eq env s d n0 ns q hnet hvm hw hq]

/-- Trace-only form of `create_unprovisioned_eq`. -/
theorem create_unprovisioned_fst (env : Env) (s : MachineState) (d : Defn)
    (n0 : String) (ns : List String) (q : String)
    (hnet : d.networks = n0 :: ns) (hvm : s.vm_id = none)
    (hw : env.writable = true) (hq : env.qemu = some q) :
    (create env s d).1 =
      (preSteps env s n0).2 ++
        [Event.imageBuild, Event.copyPrimary, Event.rebasePrimary, Event.chmodPrimary] ++
        extra_disks_trace d.disks ++ [Event.renderXml, Event.defineDomain] ++
        (start env (provisionedState (preSteps env s n0).1 d q)).1 := by
  rw [create_unprovisioned_eq env s d n0 ns q hnet hvm hw hq]

/-- Result-only form of `create_unwritable_eq`. -/
theorem create_unwritable_snd (env : Env) (s : MachineState) (d : Defn)
    (n0 : String) (ns : List String)
    (hnet : d.networks = n0 :: ns) (hvm : s.vm_id = none)
    (hw : env.writable = false) :
    (create env s d).2 = .error .preconditionError := by
  rw [create_unwritable_eq env s d n0 ns hnet hvm hw]

/-- Result-only form of `create_no_qemu_eq`. -/
theorem create_no_qemu_snd (env : Env) (s : MachineState) (d : Defn)
    (n0 : String) (ns : List String)
    (hnet : d.networks = n0 :: ns) (hvm : s.vm_id = none)
    (hw : env.writable = true) (hq : env.qemu = none) :
    (create env s d).2 = .error .preconditionError := by
  rw [create_no_qemu_eq env s d n0 ns hnet hvm hw hq]

set_option maxHeartbeats 2000000 in
/-- C5, counterexample: after a completed first create with first network
netA, a second create whose definition lists first network netB succeeds
and overwrites the stored primary network with netB — `create` re-assigns
`primary_net` unconditionally on every call, so a subsequent call with a
different first network does not leave the stored primaryNet unchanged. -/
theorem claim_C5_counterexample :
    (create exEnv (fresh "u" "m") exDefnA).2 = .ok exS1 ∧
    exS1.primary_net = some "netA" ∧
    ((create exEnv exS1 exDefnB).2.toOption.getD (fresh "" "")).primary_net = some "netB" ∧
    (create exEnv exS1 exDefnB).2.toOption.isSome = true := by
  exact ⟨rfl, rfl, rfl, rfl⟩

/-- C5, amended: `primary_net` is re-assigned by every `create` call to
the current definition's first network; after any successful create the
stored primary network equals the first network of the definition passed
to that call, so it changes whenever the definition's first network
changes. -/
theorem claim_C5_primary_net_reassigned (env : Env) (s : MachineState) (d : Defn)
    (n0 : String) (ns : List String) (s2 : MachineState)
    (hnet : d.networks = n0 :: ns)
    (hok : (create env s d).2 = .ok s2) :
    s2.primary_net = some n0 := by
  rcases hvm : s.vm_id with _ | v
  · cases hw : env.writable
    · rw [create_unwritable_snd env s d n0 ns hnet hvm hw] at hok
      simp at hok
    · rcases hq : env.qemu with _ | q
      · rw [create_no_qemu_snd env s d n0 ns hnet hvm hw hq] at hok
        simp at hok
      · rw [create_unprovisioned_snd env s d n0 ns q hnet hvm hw hq] at hok
        have hp := (start_preserves env _ s2 hok).2.2.2.2.1
        rw [hp, (provisionedState_fields (preSteps env s n0).1 d q).2.1,
          (preSteps_fields env s n0).2.2.2.1]
  · rw [create_provisioned_snd env s d n0 ns v hnet hvm] at hok
    have hp := (start_preserves env _ s2 hok).2.2.2.2.1
    rw [hp, (preSteps_fields env s n0).2.2.2.1]

set_option maxHeartbeats 1000000 in
/-- C5, witness: the concrete first create stores netA as the primary
network. -/
theorem claim_C5_witness : exS1.primary_net = some "netA" :=
  claim_C5_primary_net_reassigned exEnv (fresh "u" "m") exDefnA "netA" [] exS1 rfl rfl

/-- Unfolding of `create` when the network list is empty (the definition
parser asserts this never happens; reading `networks[0]` would raise). -/
theorem create_no_networks (env : Env) (s : MachineState) (d : Defn)
    (hnet : d.networks = []) :
    create env s d = ([], .error .configError) := by
  unfold create
  rw [hnet]

/-- With a truthy MAC stored, a sequence of assignment steps is the
identity and issues nothing. -/
theorem assignMacSeq_noop (rs : List (Fin 128 × Fin 256 × Fin 256)) (s : MachineState)
    (h : optTruthy s.primary_mac = true) : assignMacSeq rs s = (s, []) := by
  induction rs with
  | nil => rfl
  | cons r rest ih =>
    unfold assignMacSeq
    rw [assignMac_noop r.1 r.2.1 r.2.2 s h]
    dsimp only
    rw [ih]
    rfl

/-- Any sequence of assignment steps generates at most one MAC: the first
generation stores a truthy MAC, which every later step preserves. -/
theorem assignMacSeq_count (rs : List (Fin 128 × Fin 256 × Fin 256)) (s : MachineState) :
    (assignMacSeq rs s).2.countP (fun e => e == Event.generateMac) ≤ 1 := by
  cases hm : optTruthy s.primary_mac
  · cases rs with
    | nil => simp [assignMacSeq]
    | cons r rest =>
      have hgen : assignMac r.1 r.2.1 r.2.2 s =
          ({ s with primary_mac := some (generate_primary_mac r.1 r.2.1 r.2.2) },
           [Event.generateMac]) := by
        unfold assignMac
        rw [hm]
        simp
      unfold assignMacSeq
      rw [hgen]
      dsimp only
      rw [assignMacSeq_noop rest _
        (by simp [optTruthy, generate_primary_mac_ne_empty r.1 r.2.1 r.2.2])]
      simp
  · rw [assignMacSeq_noop rs s hm]
    simp

/-- C8: the MAC-assignment step is idempotent — on an identity whose
primary MAC is already set, it is the identity and issues nothing; over
any sequence of assignment steps (one per create call) at most one MAC is
generated; and a `create` call on a state with a set MAC issues no
generation event and, when it succeeds, leaves the stored MAC unchanged. -/
theorem claim_C8_assignMac_idempotent :
    (∀ (r1 : Fin 128) (r2 r3 : Fin 256) (s : MachineState) (m : String),
        s.primary_mac = some m → m ≠ "" → assignMac r1 r2 r3 s = (s, [])) ∧
    (∀ (rs : List (Fin 128 × Fin 256 × Fin 256)) (s : MachineState),
        (assignMacSeq rs s).2.countP (fun e => e == Event.generateMac) ≤ 1) ∧
    (∀ (env : Env) (s : MachineState) (d : Defn) (m : String),
        s.primary_mac = some m → m ≠ "" →
        (create env s d).1.countP (fun e => e == Event.generateMac) = 0 ∧
        ∀ s2, (create env s d).2 = .ok s2 → s2.primary_mac = some m) := by
  refine ⟨?_, assignMacSeq_count, ?_⟩
  · intro r1 r2 r3 s m hm hne
    refine assignMac_noop r1 r2 r3 s ?_
    rw [hm]
    simp [optTruthy, hne]
  · intro env s d m hm hne
    have hmt : optTruthy s.primary_mac = true := by
      rw [hm]
      simp [optTruthy, hne]
    rcases hnet : d.networks with _ | ⟨n0, ns⟩
    · rw [create_no_networks env s d hnet]
      exact ⟨rfl, fun s2 h2 => by simp at h2⟩
    · have hpre2 : (preSteps env s n0).2 = [] := by
        rw [preSteps_trace,
          assignMac_noop env.r1 env.r2 env.r3 { s with primary_net := some n0 } hmt]
      have hpre1 : (preSteps env s n0).1.primary_mac = some m := by
        rw [(preSteps_fields env s n0).2.2.2.2.2.2.2.1,
          assignMac_noop env.r1 env.r2 env.r3 { s with primary_net := some n0 } hmt]
        exact hm
      have hzero : ∀ s0 : MachineState,
          (start env s0).1.countP (fun e => e == Event.generateMac) = 0 :=
        fun s0 => start_countP_zero env s0 _ rfl rfl rfl
      rcases hvm : s.vm_id with _ | v
      · cases hw : env.writable
        · rw [create_unwritable_eq env s d n0 ns hnet hvm hw]
          refine ⟨?_, fun s2 h2 => by simp at h2⟩
          rw [hpre2]
          rfl
        · rcases hq : env.qemu with _ | q
          · rw [create_no_qemu_eq env s d n0 ns hnet hvm hw hq]
            refine ⟨?_, fun s2 h2 => by simp at h2⟩
            dsimp only
            rw [hpre2]
            simp only [List.nil_append, List.countP_append]
            rw [extra_disks_trace_countP _ (fun nm => rfl) (fun nm => rfl) d.disks]
            rfl
          · constructor
            · rw [create_unprovisioned_fst env s d n0 ns q hnet hvm hw hq, hpre2]
              simp only [List.nil_append, List.countP_append]
              rw [extra_disks_trace_countP _ (fun nm => rfl) (fun nm => rfl) d.disks,
                hzero (provisionedState (preSteps env s n0).1 d q)]
              rfl
            · intro s2 h2
              rw [create_unprovisioned_snd env s d n0 ns q hnet hvm hw hq] at h2
              have hp := (start_preserves env _ s2 h2).2.2.2.2.2.1
              rw [hp, (provisionedState_fields (preSteps env s n0).1 d q).2.2.1, hpre1]
      · constructor
        · rw [create_provisioned_fst env s d n0 ns v hnet hvm, hpre2]
          simp only [List.nil_append]
          exact hzero (preSteps env s n0).1
        · intro s2 h2
          rw [create_provisioned_snd env s d n0 ns v hnet hvm] at h2
          have hp := (start_preserves env _ s2 h2).2.2.2.2.2.1
          rw [hp, hpre1]

/-- C8, witness: a concrete identity with a stored MAC is untouched by
the assignment step, and a concrete create on it generates nothing. -/
theorem claim_C8_witness :
    assignMac 0 0 0 exSMac = (exSMac, []) ∧
    (create exEnv exSMac exDefnA).1.countP (fun e => e == Event.generateMac) = 0 := by
  refine ⟨claim_C8_assignMac_idempotent.1 0 0 0 exSMac "52:54:00:aa:bb:cc" rfl (by decide),
    (claim_C8_assignMac_idempotent.2.2 exEnv exSMac exDefnA "52:54:00:aa:bb:cc" rfl
      (by decide)).1⟩

/-- C1: starting from a fresh identity, a completed first `create` sets
the vm id and performs the base-image build, the primary-disk copy, the
descriptor render and the domain registration exactly once; a second
`create` on the resulting identity (same definition) performs none of
them — it reduces to `start` after re-pointing the primary network — so
over both calls combined, provisioning and registration happen exactly
once. -/
theorem claim_C1_create_recall (env1 env2 : Env) (u nm : String) (d : Defn)
    (n0 : String) (ns : List String) (q : String) (s1 : MachineState)
    (hnet : d.networks = n0 :: ns)
    (hw : env1.writable = true) (hq : env1.qemu = some q)
    (hkne : env1.keyPub ≠ "")
    (hok : (create env1 (fresh u nm) d).2 = .ok s1) :
    s1.vm_id = some ("nixops-" ++ u ++ "-" ++ nm) ∧
    (create env1 (fresh u nm) d).1.countP isRegistration = 1 ∧
    (create env1 (fresh u nm) d).1.countP (fun e => e == Event.imageBuild) = 1 ∧
    (create env1 (fresh u nm) d).1.countP (fun e => e == Event.copyPrimary) = 1 ∧
    (create env1 (fresh u nm) d).1.countP (fun e => e == Event.renderXml) = 1 ∧
    create env2 s1 d = start env2 { s1 with primary_net := some n0 } ∧
    (create env2 s1 d).1.countP isProvisionOrRegister = 0 ∧
    ((create env1 (fresh u nm) d).1 ++ (create env2 s1 d).1).countP isRegistration = 1 ∧
    ((create env1 (fresh u nm) d).1 ++ (create env2 s1 d).1).countP
      (fun e => e == Event.copyPrimary) = 1 := by
  have hvm : (fresh u nm).vm_id = none := rfl
  have hpre2 : (preSteps env1 (fresh u nm) n0).2 = [Event.generateMac] := by
    rw [preSteps_trace]
    rfl
  have hpre1 : (preSteps env1 (fresh u nm) n0).1.primary_mac =
      some (generate_primary_mac env1.r1 env1.r2 env1.r3) := by
    rw [(preSteps_fields env1 (fresh u nm) n0).2.2.2.2.2.2.2.1]
    rfl
  have hprek : (preSteps env1 (fresh u nm) n0).1.client_public_key = some env1.keyPub := by
    rw [(preSteps_fields env1 (fresh u nm) n0).2.2.2.2.2.2.2.2.2]
    rfl
  rw [create_unprovisioned_snd env1 (fresh u nm) d n0 ns q hnet hvm hw hq] at hok
  have hS := start_preserves env1 _ s1 hok
  have hP := provisionedState_fields (preSteps env1 (fresh u nm) n0).1 d q
  have hvm1 : s1.vm_id = some ("nixops-" ++ u ++ "-" ++ nm) := by
    rw [hS.2.2.2.2.2.2.2.2.2.1, hP.1]
    unfold vm_id_string
    rw [(preSteps_fields env1 (fresh u nm) n0).2.1,
      (preSteps_fields env1 (fresh u nm) n0).2.2.1]
    rfl
  have hmac1 : s1.primary_mac = some (generate_primary_mac env1.r1 env1.r2 env1.r3) := by
    rw [hS.2.2.2.2.2.1, hP.2.2.1, hpre1]
  have hkey1 : s1.client_public_key = some env1.keyPub := by
    rw [hS.2.2.1, hP.2.2.2.1, hprek]
  have hm1 : optTruthy s1.primary_mac = true := by
    rw [hmac1]
    simp [optTruthy, generate_primary_mac_ne_empty]
  have hk1 : optTruthy s1.client_public_key = true := by
    rw [hkey1]
    simp [optTruthy, hkne]
  have hsecond : create env2 s1 d = start env2 { s1 with primary_net := some n0 } := by
    rw [create_provisioned_eq env2 s1 d n0 ns ("nixops-" ++ u ++ "-" ++ nm) hnet hvm1,
      preSteps_noop env2 s1 n0 hm1 hk1]
    simp
  have hzero2 : (create env2 s1 d).1.countP isProvisionOrRegister = 0 := by
    rw [hsecond]
    exact start_countP_zero env2 _ _ rfl rfl rfl
  have ht1 := create_unprovisioned_fst env1 (fresh u nm) d n0 ns q hnet hvm hw hq
  have hreg1 : (create env1 (fresh u nm) d).1.countP isRegistration = 1 := by
    rw [ht1, hpre2]
    simp only [List.countP_append]
    rw [extra_disks_trace_countP _ (fun nm2 => rfl) (fun nm2 => rfl) d.disks,
      start_countP_zero env1 _ _ rfl rfl rfl]
    rfl
  have himg1 : (create env1 (fresh u nm) d).1.countP (fun e => e == Event.imageBuild) = 1 := by
    rw [ht1, hpre2]
    simp only [List.countP_append]
    rw [extra_disks_trace_countP _ (fun nm2 => rfl) (fun nm2 => rfl) d.disks,
      start_countP_zero env1 _ _ rfl rfl rfl]
    rfl
  have hcopy1 : (create env1 (fresh u nm) d).1.countP (fun e => e == Event.copyPrimary) = 1 := by
    rw [ht1, hpre2]
    simp only [List.countP_append]
    rw [extra_disks_trace_countP _ (fun nm2 => rfl) (fun nm2 => rfl) d.disks,
      start_countP_zero env1 _ _ rfl rfl rfl]
    rfl
  have hrend1 : (create env1 (fresh u nm) d).1.countP (fun e => e == Event.renderXml) = 1 := by
    rw [ht1, hpre2]
    simp only [List.countP_append]
    rw [extra_disks_trace_countP _ (fun nm2 => rfl) (fun nm2 => rfl) d.disks,
      start_countP_zero env1 _ _ rfl rfl rfl]
    rfl
  have hzero2reg : (create env2 s1 d).1.countP isRegistration = 0 := by
    rw [hsecond]
    exact start_countP_zero env2 _ _ rfl rfl rfl
  have hzero2copy : (create env2 s1 d).1.countP (fun e => e == Event.copyPrimary) = 0 := by
    rw [hsecond]
    exact start_countP_zero env2 _ _ rfl rfl rfl
  refine ⟨hvm1, hreg1, himg1, hcopy1, hrend1, hsecond, hzero2, ?_, ?_⟩
  · rw [List.countP_append, hreg1, hzero2reg]
  · rw [List.countP_append, hcopy1, hzero2copy]

set_option maxHeartbeats 2000000 in
/-- C1, witness: the concrete first create on a fresh identity followed
by a second create that provisions nothing. -/
theorem claim_C1_witness :
    exS1.vm_id = some "nixops-u-m" ∧
    (create exEnv exS1 exDefnA).1.countP isProvisionOrRegister = 0 := by
  have h := claim_C1_create_recall exEnv exEnv "u" "m" exDefnA "netA" []
    "/usr/bin/qemu-system-x86_64" exS1 rfl rfl rfl (by decide) rfl
  exact ⟨h.1, h.2.2.2.2.2.2.1⟩

/-- C2, witness: destroying the concrete provisioned machine (reported
running) succeeds, records the STOPPED flag, and issues the force-stop. -/
theorem claim_C2_witness :
    (destroy exEnv exSD).2 = .ok { exSD with state_flag := StateFlag.stopped } ∧
    Event.forceStop ∈ (destroy exEnv exSD).1 := by
  have h := claim_C2_destroy_behavior exEnv exSD "nixops-u-m" rfl (by decide)
  exact ⟨h.1, h.2.2.1.mpr rfl⟩
